import Mathlib

/-!
Verification development for the Mock-Interview-Bot repository
(`interview-bot/src/App.jsx`).

The file shallowly embeds the session controller of the application: the
chat transcript, the three-screen state machine (`setup`, `interview`,
`feedback`), the generation-endpoint client `callGemini`, and the handlers
`startInterview`, `handleSendMessage`, `endInterview`, `downloadTranscript`
together with the button-level guards of the render functions.

The network is modelled by an oracle value (`FetchOutcome`) supplied to each
handler: it stands for the result of the single `fetch` round trip the
handler awaits.  Each handler is embedded as a pure function from the
component state and the oracle outcome to the next component state,
collapsing the `await` into one atomic step (the spec's concurrency model:
one request in flight, the caller awaits completion).
-/

/-- Speaker tag of one chat turn, as stored in `chatHistory`:
the JS code uses the strings `'system_hidden'`, `'bot'` and `'user'`. -/
inductive Role where
  | system_hidden
  | bot
  | user
deriving DecidableEq, Repr

/-- One element of the `chatHistory` array: `{ role, text }`. -/
structure Msg where
  role : Role
  text : String
deriving DecidableEq, Repr

/-- The `screen` state variable: `'setup' | 'interview' | 'feedback'`. -/
inductive Screen where
  | setup
  | interview
  | feedback
deriving DecidableEq, Repr

/-! ### JavaScript string primitives

The handlers use `String.prototype.trim`, `replace` (with a global regexp on
a fixed literal pattern), `startsWith` and `+` on strings.  They are embedded
here over `List Char` so that every theorem's witness evaluates inside the
kernel. -/

/-- Whitespace test covering the characters the embedded strings use
(space, tab, line feed, carriage return); `String.prototype.trim` strips
these from both ends. -/
def isJsWs (c : Char) : Bool :=
  c == ' ' || c == '\t' || c == '\n' || c == '\r'

/-- Embedding of `s.trim()`. -/
def jsTrim (s : String) : String :=
  ⟨((s.data.dropWhile isJsWs).reverse.dropWhile isJsWs).reverse⟩

/-- Embedding of `s.startsWith(p)`. -/
def jsStartsWith (s p : String) : Bool :=
  p.data.isPrefixOf s.data

/-- Replace every occurrence of `pat` (a fixed non-empty literal, standing
for a global regexp such as `/```json/g`) by `rep`, scanning left to right
as `String.prototype.replace` does.  An empty pattern is returned
unchanged (the source never uses one).  The fuel argument only bounds the
recursion; `jsReplace` supplies enough for the whole input. -/
def replList (pat rep : List Char) : Nat → List Char → List Char
  | 0, l => l
  | _ + 1, [] => []
  | f + 1, c :: rest =>
    if pat.isPrefixOf (c :: rest) && !pat.isEmpty then
      rep ++ replList pat rep f ((c :: rest).drop pat.length)
    else
      c :: replList pat rep f rest

/-- Embedding of `s.replace(/pat/g, rep)` for a literal pattern. -/
def jsReplace (s pat rep : String) : String :=
  ⟨replList pat.data rep.data (s.data.length + 1) s.data⟩

/-! ### The generation endpoint client (`callGemini`, App.jsx lines 154-201) -/

/-- One `{ text }` object inside `parts`. -/
structure TextPart where
  text : String
deriving DecidableEq, Repr

/-- The `content` object of a candidate: `{ parts: [...] }`. -/
structure Content where
  parts : List TextPart
deriving DecidableEq, Repr

/-- One element of `data.candidates`; `content` may be absent
(`!data.candidates[0].content` is checked by the code). -/
structure Candidate where
  content : Option Content
deriving DecidableEq, Repr

/-- The parsed JSON body of a successful endpoint response;
`candidates` may be absent (`!data.candidates` is checked). -/
structure GeminiBody where
  candidates : Option (List Candidate)
deriving DecidableEq, Repr

/-- Oracle for one `fetch` round trip inside `callGemini`:
* `ok body` — `response.ok` held and `response.json()` parsed to `body`;
* `httpErr status errMsg statusText` — `!response.ok`; `errMsg` models
  `errorData.error?.message` (absent when the error body had no such field
  or did not parse), `statusText` models `response.statusText`;
* `transportErr msg` — `fetch` (or a `json()` call) threw; `msg` is the
  thrown error's `.message`. -/
inductive FetchOutcome where
  | ok (body : GeminiBody)
  | httpErr (status : Nat) (errMsg : Option String) (statusText : String)
  | transportErr (msg : String)
deriving DecidableEq, Repr

/-- Embedding of the JS fallback `m || fallback` for an optional string:
`undefined` and the empty string are falsy. -/
def jsOrStr (m : Option String) (fallback : String) : String :=
  match m with
  | some s => if s = "" then fallback else s
  | none => fallback

/-- Extraction of the generated text from a success body, following
`callGemini`: if `!data.candidates || !data.candidates[0] ||
!data.candidates[0].content` the code throws
`"No candidates returned from API"` (caught below and string-wrapped);
otherwise it returns `data.candidates[0].content.parts[0].text`, which on an
empty `parts` array throws the JS TypeError
`"Cannot read properties of undefined (reading 'text')"` (also caught). -/
def extractText (b : GeminiBody) : String :=
  match b.candidates with
  | none => "Error: No candidates returned from API"
  | some [] => "Error: No candidates returned from API"
  | some (c :: _) =>
    match c.content with
    | none => "Error: No candidates returned from API"
    | some ct =>
      match ct.parts with
      | [] => "Error: Cannot read properties of undefined (reading 'text')"
      | p :: _ => p.text

/-- The string value `callGemini` resolves to, as a function of the fetch
oracle.  Every throw inside the `try` block is caught and returned as
`` `Error: ${error.message}` ``; a non-ok response throws
`` `API Error: ${response.status} - ${errorData.error?.message || response.statusText}` ``. -/
def callGeminiResult : FetchOutcome → String
  | FetchOutcome.ok body => extractText body
  | FetchOutcome.httpErr status errMsg statusText =>
    "Error: " ++ ("API Error: " ++ toString status ++ " - " ++ jsOrStr errMsg statusText)
  | FetchOutcome.transportErr msg => "Error: " ++ msg

/-! ### The request body built by `callGemini` (lines 158-184) -/

/-- Wire role of one `contents` entry. -/
inductive ApiRole where
  | model
  | user
deriving DecidableEq, Repr

/-- One `contents` entry: `{ role, parts: [{ text }] }`. -/
structure Entry where
  role : ApiRole
  parts : List TextPart
deriving DecidableEq, Repr

/-- The JSON body sent by `callGemini`:
`{ contents, systemInstruction? }`. -/
structure RequestBody where
  contents : List Entry
  systemInstruction : Option (List TextPart)
deriving DecidableEq, Repr

/-- Mapping of one history message to a `contents` entry
(line 158-161): `role: msg.role === 'bot' ? 'model' : 'user'`. -/
def toEntry (m : Msg) : Entry :=
  ⟨if m.role = Role.bot then ApiRole.model else ApiRole.user, [⟨m.text⟩]⟩

/-- The request body `callGemini(prompt, history, isSystemInstruction)`
serialises: the mapped history, then — when `prompt` is truthy — one final
user entry holding the prompt; the system instruction, when truthy, goes
into the separate `systemInstruction` field, never into `contents`. -/
def buildRequestBody (prompt : Option String) (history : List Msg)
    (sysInstr : Option String) : RequestBody :=
  let formattedHistory := history.map toEntry
  let contents := formattedHistory ++
    (match prompt with
     | some p => if p = "" then [] else [⟨ApiRole.user, [⟨p⟩]⟩]
     | none => [])
  { contents := contents
    systemInstruction :=
      match sysInstr with
      | some si => if si = "" then none else some [⟨si⟩]
      | none => none }

/-! ### A model of the JSON values handled by `endInterview`

`endInterview` runs `JSON.parse` on the fence-stripped feedback text and then
coalesces fields defensively.  `Json` models the parsed value; the recursive
descent below models the builtin `JSON.parse` on the JSON fragment the
application meets (objects, arrays, strings with simple escapes, integer
numerals, booleans, null); it returns `none` where `JSON.parse` throws. -/

/-- A parsed JSON value. -/
inductive Json where
  | str (s : String)
  | num (n : Int)
  | bool (b : Bool)
  | null
  | arr (xs : List Json)
  | obj (fields : List (String × Json))

/-- Decode of one escaped character after a backslash inside a JSON string
(the fragment used: quote, backslash, slash, `n`, `t`, `r`). -/
def escChar (c : Char) : Char :=
  if c = 'n' then '\n'
  else if c = 't' then '\t'
  else if c = 'r' then '\r'
  else c

/-- Skip JSON insignificant whitespace. -/
def skipWs : List Char → List Char
  | [] => []
  | c :: cs => if isJsWs c then skipWs cs else c :: cs

/-- Scan a JSON string body after the opening quote; returns the decoded
characters and the rest after the closing quote. -/
def scanStr (fuel : Nat) (l : List Char) : Option (List Char × List Char) :=
  match fuel, l with
  | 0, _ => none
  | _ + 1, [] => none
  | _ + 1, '"' :: cs => some ([], cs)
  | f + 1, '\\' :: cs =>
    match cs with
    | [] => none
    | c :: cs2 =>
      match scanStr f cs2 with
      | some (acc, r) => some (escChar c :: acc, r)
      | none => none
  | f + 1, c :: cs =>
    match scanStr f cs with
    | some (acc, r) => some (c :: acc, r)
    | none => none

/-- Scan a run of decimal digits. -/
def scanDigits : List Char → (List Char × List Char)
  | [] => ([], [])
  | c :: cs =>
    if c.isDigit then
      let (ds, r) := scanDigits cs
      (c :: ds, r)
    else
      ([], c :: cs)

/-- Value of a digit run. -/
def digitsVal (l : List Char) : Nat :=
  l.foldl (fun acc c => acc * 10 + (c.toNat - '0'.toNat)) 0

mutual

/-- Parse one JSON value (integer numerals only). -/
def pVal (fuel : Nat) (l : List Char) : Option (Json × List Char) :=
  match fuel with
  | 0 => none
  | f + 1 =>
    match skipWs l with
    | [] => none
    | '"' :: cs =>
      match scanStr (cs.length + 1) cs with
      | some (acc, r) => some (Json.str ⟨acc⟩, r)
      | none => none
    | '\x7b' :: cs =>
      match skipWs cs with
      | '\x7d' :: r => some (Json.obj [], r)
      | rest => pMembers f rest []
    | '[' :: cs =>
      match skipWs cs with
      | ']' :: r => some (Json.arr [], r)
      | rest => pItems f rest []
    | 't' :: cs =>
      if cs.take 3 = ['r', 'u', 'e'] then some (Json.bool true, cs.drop 3) else none
    | 'f' :: cs =>
      if cs.take 4 = ['a', 'l', 's', 'e'] then some (Json.bool false, cs.drop 4) else none
    | 'n' :: cs =>
      if cs.take 3 = ['u', 'l', 'l'] then some (Json.null, cs.drop 3) else none
    | '-' :: cs =>
      match scanDigits cs with
      | ([], _) => none
      | (ds, r) => some (Json.num (-(digitsVal ds : Int)), r)
    | c :: cs =>
      if c.isDigit then
        match scanDigits (c :: cs) with
        | (ds, r) => some (Json.num (digitsVal ds : Int), r)
      else none

/-- Parse the members of an object after `{`, accumulating in order
(later duplicates would win on lookup, as in `JSON.parse`). -/
def pMembers (fuel : Nat) (l : List Char) (acc : List (String × Json)) :
    Option (Json × List Char) :=
  match fuel with
  | 0 => none
  | f + 1 =>
    match skipWs l with
    | '"' :: cs =>
      match scanStr (cs.length + 1) cs with
      | none => none
      | some (k, r1) =>
        match skipWs r1 with
        | ':' :: r2 =>
          match pVal f r2 with
          | none => none
          | some (v, r3) =>
            match skipWs r3 with
            | ',' :: r4 => pMembers f r4 (acc ++ [(⟨k⟩, v)])
            | '\x7d' :: r4 => some (Json.obj (acc ++ [(⟨k⟩, v)]), r4)
            | _ => none
        | _ => none
    | _ => none

/-- Parse the items of an array after `[`. -/
def pItems (fuel : Nat) (l : List Char) (acc : List Json) :
    Option (Json × List Char) :=
  match fuel with
  | 0 => none
  | f + 1 =>
    match pVal f l with
    | none => none
    | some (v, r1) =>
      match skipWs r1 with
      | ',' :: r2 => pItems f r2 (acc ++ [v])
      | ']' :: r2 => some (Json.arr (acc ++ [v]), r2)
      | _ => none

end

/-- Model of `JSON.parse`: parse one value and require only trailing
whitespace; `none` models a thrown `SyntaxError`. -/
def jsonParse (s : String) : Option Json :=
  match pVal (4 * s.length + 8) s.data with
  | some (j, rest) => if skipWs rest = [] then some j else none
  | none => none

/-! ### The feedback report (`endInterview`, App.jsx lines 270-326) -/

/-- The value passed to `setFeedbackReport`.  Field values keep their parsed
JSON shape: the JS code assigns whatever the coalescing expressions produce
(`parsedFeedback.summary || "No summary available."` can be any truthy JSON
value, and the `Array.isArray` guards produce arrays of arbitrary JSON
values). -/
structure FeedbackReport where
  summary : Json
  strengths : List Json
  improvements : List Json
  rating : Json
  technical_analysis : Json
  communication_analysis : Json

/-- JS truthiness of a parsed JSON value (`""`, `0`, `false` and `null` are
falsy; every object and array is truthy). -/
def jsTruthy : Json → Bool
  | Json.str s => !(s = "")
  | Json.num n => !(n = 0)
  | Json.bool b => b
  | Json.null => false
  | Json.arr _ => true
  | Json.obj _ => true

/-- Property read `v.k` on a parsed JSON value other than `null`:
`some` for a present field (later duplicates win, as in an object built by
`JSON.parse`), `none` for JS `undefined`. -/
def jsField : Json → String → Option Json
  | Json.obj fs, k => fs.reverse.lookup k
  | _, _ => none

/-- Embedding of `v || dflt` where `v` is an optional JSON value
(`undefined` when absent). -/
def jsOrJson (v : Option Json) (dflt : Json) : Json :=
  match v with
  | some j => if jsTruthy j then j else dflt
  | none => dflt

/-- Embedding of `Array.isArray(v) ? v : []`. -/
def jsArrayOr (v : Option Json) : List Json :=
  match v with
  | some (Json.arr xs) => xs
  | _ => []

/-- The report built on the success path of `endInterview` (lines 302-309)
from the parsed feedback value; `none` models the TypeError thrown by a
property read on `null` (`JSON.parse` of `"null"`), which the `catch` block
handles. -/
def buildReport (parsed : Json) : Option FeedbackReport :=
  match parsed with
  | Json.null => none
  | j =>
    some
      { summary := jsOrJson (jsField j "summary") (Json.str "No summary available.")
        strengths := jsArrayOr (jsField j "strengths")
        improvements := jsArrayOr (jsField j "improvements")
        rating := jsOrJson (jsField j "rating") (Json.str "N/A")
        technical_analysis :=
          jsOrJson (jsField j "technical_analysis") (Json.str "No analysis available.")
        communication_analysis :=
          jsOrJson (jsField j "communication_analysis") (Json.str "No analysis available.") }

/-- The report built by the `catch` block of `endInterview` (lines 313-320).
In the source, `rawFeedback` is declared with `const` inside the `try` block,
so inside the `catch` block the name is unresolvable; JS `typeof` on an
unresolvable name evaluates to `"undefined"`, hence
`typeof rawFeedback === 'string'` is always false there and
`technical_analysis` is always the fixed string `"Raw output: " + "Error"`,
never the raw response text. -/
def catchReport : FeedbackReport :=
  { summary := Json.str "Could not generate structured JSON."
    strengths := []
    improvements := []
    rating := Json.str "?/10"
    technical_analysis := Json.str ("Raw output: " ++ "Error")
    communication_analysis := Json.str "" }

/-- Fence stripping before `JSON.parse` (line 298):
`rawFeedback.replace(/```json/g, '').replace(/```/g, '').trim()`. -/
def stripFences (s : String) : String :=
  jsTrim (jsReplace (jsReplace s "```json" "") "```" "")

/-! ### Component state and handlers -/

/-- The component state the claims depend on.  Device/ref state (video
stream, speech recognition, API key fields) carries no session logic and is
omitted. -/
structure AppState where
  screen : Screen
  role : String
  skills : String
  experience : String
  rubric : String
  loading : Bool
  chatHistory : List Msg
  currentInput : String
  interimInput : String
  questionCount : Nat
  timer : Nat
  isTimerRunning : Bool
  feedbackReport : Option FeedbackReport
  isGeneratingFeedback : Bool

/-- Initial `useState` values (App.jsx lines 16-43). -/
def initState : AppState :=
  { screen := Screen.setup
    role := "Senior Software Engineer"
    skills := "React, Node.js, System Design"
    experience := "Senior (5+ years)"
    rubric := "Focus on architectural patterns, scalability, and edge cases. Be strict but polite."
    loading := false
    chatHistory := []
    currentInput := ""
    interimInput := ""
    questionCount := 0
    timer := 0
    isTimerRunning := false
    feedbackReport := none
    isGeneratingFeedback := false }

/-- The system-instruction template interpolated by `startInterview`
(lines 213-223). -/
def mkSystemPrompt (s : AppState) : String :=
  "\n      You are an expert interviewer for a " ++ s.role ++ " position. \n      The candidate has the following experience: " ++ s.experience ++ ".\n      Key skills to assess: " ++ s.skills ++ ".\n      Rubric: " ++ s.rubric ++ ".\n      \n      Your Goal: Conduct a mock interview. \n      1. Keep your questions CONCISE (1-2 sentences max) so they fit on the screen.\n      2. Ask ONE question at a time.\n      3. Do not provide feedback yet, just interview.\n    "

/-- Embedding of `startInterview` (lines 205-235): state after the awaited
call resolves with outcome `o`.  The transcript becomes the hidden system
turn followed by the interviewer greeting; counters, report and timer are
reset and the timer restarted; the screen becomes `interview`. -/
def startInterview (s : AppState) (o : FetchOutcome) : AppState :=
  { s with
      chatHistory :=
        [⟨Role.system_hidden, mkSystemPrompt s⟩, ⟨Role.bot, callGeminiResult o⟩]
      questionCount := 0
      feedbackReport := none
      timer := 0
      isTimerRunning := true
      screen := Screen.interview
      loading := false }

/-- Embedding of `handleSendMessage` (lines 237-268): a no-op when the
joined input trims to empty; otherwise the candidate turn and the awaited
response (or wrapped error) are appended, `questionCount` is incremented
unconditionally, the inputs are cleared and the per-question timer
restarts. -/
def handleSendMessage (s : AppState) (o : FetchOutcome) : AppState :=
  let finalMsg := s.currentInput ++ s.interimInput
  if jsTrim finalMsg = "" then s
  else
    { s with
        chatHistory :=
          s.chatHistory ++ [⟨Role.user, finalMsg⟩, ⟨Role.bot, callGeminiResult o⟩]
        currentInput := ""
        interimInput := ""
        questionCount := s.questionCount + 1
        loading := false
        timer := 0
        isTimerRunning := true }

/-- The Submit Answer control (line 546-553): the button carries
`disabled={loading || (!currentInput && !interimInput)}`, so a click while a
request is in flight, or with both inputs empty, does nothing. -/
def submitClick (s : AppState) (o : FetchOutcome) : AppState :=
  if s.loading = true ∨ (s.currentInput = "" ∧ s.interimInput = "") then s
  else handleSendMessage s o

/-- Embedding of `endInterview` (lines 270-326): the awaited feedback call
resolves to `raw`; an `Error:`-prefixed result is re-thrown into the `catch`
block, otherwise the fence-stripped text is parsed and the report coalesced;
a parse failure or a property read on `null` also lands in the `catch`
block.  Both paths set the report and move to the feedback screen; the
transcript is never touched. -/
def endInterview (s : AppState) (o : FetchOutcome) : AppState :=
  let raw := callGeminiResult o
  let report : FeedbackReport :=
    if jsStartsWith raw "Error:" then catchReport
    else
      match jsonParse (stripFences raw) with
      | none => catchReport
      | some parsed =>
        match buildReport parsed with
        | none => catchReport
        | some r => r
  { s with
      feedbackReport := some report
      screen := Screen.feedback
      isTimerRunning := false
      loading := false
      isGeneratingFeedback := false }

/-- The End-interview control (lines 535-542): the red button is rendered
with no `disabled` attribute, so it is clickable — and `endInterview` runs —
even while a generation request is in flight; the `confirm` dialog is
modelled as accepted. -/
def endClick (s : AppState) (o : FetchOutcome) : AppState :=
  endInterview s o

/-- The New Interview control on the feedback screen (lines 579-586):
`onClick={() => setScreen('setup')}` — it changes the screen and nothing
else. -/
def restartClick (s : AppState) : AppState :=
  { s with screen := Screen.setup }

/-- The transcript turns visible to the user: both `downloadTranscript`
(line 330) and the chat list of the render function filter with
`m.role !== 'system_hidden'`. -/
def visibleTurns (h : List Msg) : List Msg :=
  h.filter fun m => decide (m.role ≠ Role.system_hidden)

/-- Upper-casing of the stored role string, `m.role.toUpperCase()`. -/
def roleUpper : Role → String
  | Role.system_hidden => "SYSTEM_HIDDEN"
  | Role.bot => "BOT"
  | Role.user => "USER"

/-- One line of the downloaded transcript: `` `${m.role.toUpperCase()}: ${m.text}` ``. -/
def transcriptLine (m : Msg) : String :=
  roleUpper m.role ++ ": " ++ m.text

/-- The text handed to the `Blob` by `downloadTranscript` (lines 328-340). -/
def downloadText (h : List Msg) : String :=
  String.intercalate "\n\n" ((visibleTurns h).map transcriptLine)

/-! ### The UI event dispatch

Each render function exists only on its screen (lines 656-662), so each
control can fire only there; `dispatch` routes an event to its handler
exactly when the owning screen is active.  The Start button additionally
carries `disabled={loading}` (line 429). -/

/-- A user-interface event together with the fetch oracle its handler will
consume. -/
inductive Event where
  | startClick (o : FetchOutcome)
  | submitClick (o : FetchOutcome)
  | endClick (o : FetchOutcome)
  | restartClick

/-- One step of the session state machine. -/
def dispatch (s : AppState) : Event → AppState
  | Event.startClick o =>
    if s.screen = Screen.setup then
      (if s.loading = true then s else startInterview s o)
    else s
  | Event.submitClick o =>
    if s.screen = Screen.interview then submitClick s o else s
  | Event.endClick o =>
    if s.screen = Screen.interview then endClick s o else s
  | Event.restartClick =>
    if s.screen = Screen.feedback then restartClick s else s

/-- States reachable from the initial mount through UI events. -/
inductive Reachable : AppState → Prop
  | init : Reachable initState
  | step (s : AppState) (e : Event) : Reachable s → Reachable (dispatch s e)

/-! ### Concrete session states used by witnesses and counterexamples -/

/-- An interview-screen state with one question asked and an answer typed. -/
def exInterviewState : AppState :=
  { initState with
      screen := Screen.interview
      chatHistory :=
        [⟨Role.system_hidden, "persona"⟩, ⟨Role.bot, "Tell me about yourself."⟩]
      currentInput := "I build web services."
      isTimerRunning := true }

/-- The interview state while a generation request is in flight. -/
def exBusyState : AppState :=
  { exInterviewState with loading := true }

/-- An interview state whose typed input is whitespace only. -/
def exSpacesState : AppState :=
  { exInterviewState with currentInput := "   " }

/-- A feedback-screen state reached after one answered question. -/
def exFeedbackState : AppState :=
  { exInterviewState with
      screen := Screen.feedback
      chatHistory :=
        exInterviewState.chatHistory ++
          [⟨Role.user, "I build web services."⟩, ⟨Role.bot, "Thanks, that is all."⟩]
      currentInput := ""
      questionCount := 1
      feedbackReport := some catchReport
      isTimerRunning := false }

/-- A success body whose generated text is `"Hello"`. -/
def helloBody : GeminiBody :=
  ⟨some [⟨some ⟨[⟨"Hello"⟩]⟩⟩]⟩

/-! ### Claim C8 -/

/-- Claim C8: given the endpoint success response
`{candidates:[{content:{parts:[{text:"Hello"}]}}]}`, `startInterview`
produces the transcript `[system, {interviewer, "Hello"}]` (exactly two
turns), `questionCount = 0`, and the timer reset and started. -/
theorem startInterview_hello (s : AppState) :
    (startInterview s (FetchOutcome.ok helloBody)).chatHistory
      = [⟨Role.system_hidden, mkSystemPrompt s⟩, ⟨Role.bot, "Hello"⟩]
    ∧ (startInterview s (FetchOutcome.ok helloBody)).questionCount = 0
    ∧ (startInterview s (FetchOutcome.ok helloBody)).timer = 0
    ∧ (startInterview s (FetchOutcome.ok helloBody)).isTimerRunning = true
    ∧ (startInterview s (FetchOutcome.ok helloBody)).screen = Screen.interview :=
  ⟨rfl, rfl, rfl, rfl, rfl⟩

/-! ### Claim C10 -/

/-- Claim C10: `endInterview` never modifies the transcript — neither the
feedback prompt nor the generated feedback text is appended — so
`downloadTranscript` on the feedback screen operates on exactly the
transcript at the moment `end()` was invoked. -/
theorem endInterview_transcript_unchanged (s : AppState) (o : FetchOutcome) :
    (endInterview s o).chatHistory = s.chatHistory
    ∧ downloadText (endInterview s o).chatHistory = downloadText s.chatHistory
    ∧ (endInterview s o).screen = Screen.feedback :=
  ⟨rfl, rfl, rfl⟩

/-! ### Claim C4 -/

/-- Claim C4: for every transcript (in particular every reachable one), the
hidden system turn is never among the turns formatted by
`downloadTranscript` nor among the turns the interview screen renders; both
draw from the same `role !== 'system_hidden'` filter, and the downloaded
text is assembled from exactly that filtered list. -/
theorem system_turn_never_visible (h : List Msg) :
    (∀ m, m ∈ visibleTurns h → m.role ≠ Role.system_hidden)
    ∧ downloadText h
        = String.intercalate "\n\n" ((visibleTurns h).map transcriptLine) := by
  constructor
  · intro m hm
    have := (List.mem_filter.mp hm).2
    exact of_decide_eq_true this
  · rfl

/-- Witness for C4 at a concrete transcript containing the system turn. -/
theorem system_turn_never_visible_witness :
    (⟨Role.bot, "Tell me about yourself."⟩ : Msg).role ≠ Role.system_hidden :=
  (system_turn_never_visible exInterviewState.chatHistory).1
    ⟨Role.bot, "Tell me about yourself."⟩ (by decide)

/-! ### Claim C7 -/

/-- Claim C7: the request body maps each interviewer (`bot`) turn to wire
role `model` and each candidate (`user`) turn to wire role `user`, in input
order (via `List.map`); a supplied (truthy) trailing prompt becomes the
final user-role entry; a present system instruction travels in the separate
`systemInstruction` field and adds nothing to `contents`. -/
theorem request_body_mapping (h : List Msg) (p si : String)
    (hp : p ≠ "") (hsi : si ≠ "") :
    (buildRequestBody (some p) h (some si)).contents
      = h.map toEntry ++ [⟨ApiRole.user, [⟨p⟩]⟩]
    ∧ (buildRequestBody (some p) h (some si)).systemInstruction = some [⟨si⟩]
    ∧ (∀ m : Msg, m.role = Role.bot → toEntry m = ⟨ApiRole.model, [⟨m.text⟩]⟩)
    ∧ (∀ m : Msg, m.role = Role.user → toEntry m = ⟨ApiRole.user, [⟨m.text⟩]⟩) := by
  refine ⟨?_, ?_, ?_, ?_⟩
  · simp [buildRequestBody, hp]
  · simp [buildRequestBody, hsi]
  · intro m hm
    simp [toEntry, hm]
  · intro m hm
    simp [toEntry, hm]

/-- Witness for C7 at a concrete two-turn history. -/
theorem request_body_mapping_witness :
    (buildRequestBody (some "Wrap up.") [⟨Role.bot, "Q1"⟩, ⟨Role.user, "A1"⟩]
        (some "persona")).contents
      = [⟨ApiRole.model, [⟨"Q1"⟩]⟩, ⟨ApiRole.user, [⟨"A1"⟩]⟩,
         ⟨ApiRole.user, [⟨"Wrap up."⟩]⟩]
    ∧ (buildRequestBody (some "Wrap up.") [⟨Role.bot, "Q1"⟩, ⟨Role.user, "A1"⟩]
        (some "persona")).systemInstruction = some [⟨"persona"⟩] := by
  have h := request_body_mapping [⟨Role.bot, "Q1"⟩, ⟨Role.user, "A1"⟩]
    "Wrap up." "persona" (by decide) (by decide)
  exact ⟨by rw [h.1]; rfl, h.2.1⟩

/-! ### Claim C6 -/

/-- Test for a success body in which the expected generated-content path
`data.candidates[0].content` is missing. -/
def missingContent (b : GeminiBody) : Bool :=
  match b.candidates with
  | none => true
  | some [] => true
  | some (c :: _) =>
    match c.content with
    | none => true
    | some _ => false

/-- Claim C6 (amended): the endpoint client never throws — each failure is
string-wrapped with an `"Error:"` prefix and returned as a value: a non-ok
HTTP response carries the status code and the server message (falling back
to the status text), a success body missing the generated-content path
yields the failure `"Error: No candidates returned from API"` (not the
spec's literal "no content returned"), and a transport failure carries the
underlying error message. -/
theorem gemini_failures_string_wrapped :
    (∀ (code : Nat) (em : Option String) (stx : String),
      ∃ r, callGeminiResult (FetchOutcome.httpErr code em stx) = "Error:" ++ r
        ∧ r = " " ++ ("API Error: " ++ toString code ++ " - " ++ jsOrStr em stx))
    ∧ (∀ b : GeminiBody, missingContent b = true →
        callGeminiResult (FetchOutcome.ok b)
          = "Error: No candidates returned from API")
    ∧ (∀ msg : String,
        ∃ r, callGeminiResult (FetchOutcome.transportErr msg) = "Error:" ++ r
          ∧ r = " " ++ msg) := by
  refine ⟨?_, ?_, ?_⟩
  · intro code em stx
    refine ⟨" " ++ ("API Error: " ++ toString code ++ " - " ++ jsOrStr em stx), ?_, rfl⟩
    show "Error: " ++ _ = _
    rw [show ("Error: " : String) = "Error:" ++ " " from rfl, String.append_assoc]
  · intro b hb
    rcases b with ⟨cands⟩
    match cands with
    | none => rfl
    | some [] => rfl
    | some (⟨none⟩ :: _) => rfl
    | some (⟨some ct⟩ :: _) => simp [missingContent] at hb
  · intro msg
    refine ⟨" " ++ msg, ?_, rfl⟩
    show "Error: " ++ _ = _
    rw [show ("Error: " : String) = "Error:" ++ " " from rfl, String.append_assoc]

/-- Witness for C6 at concrete failures of all three kinds. -/
theorem gemini_failures_string_wrapped_witness :
    callGeminiResult (FetchOutcome.httpErr 429 (some "quota exceeded") "Too Many Requests")
      = "Error:" ++ (" " ++ ("API Error: " ++ toString 429 ++ " - " ++ jsOrStr (some "quota exceeded") "Too Many Requests"))
    ∧ callGeminiResult (FetchOutcome.ok ⟨none⟩) = "Error: No candidates returned from API"
    ∧ callGeminiResult (FetchOutcome.transportErr "Failed to fetch")
      = "Error:" ++ (" " ++ "Failed to fetch") := by
  obtain ⟨h1, h2, h3⟩ := gemini_failures_string_wrapped
  obtain ⟨r1, e1, q1⟩ := h1 429 (some "quota exceeded") "Too Many Requests"
  obtain ⟨r3, e3, q3⟩ := h3 "Failed to fetch"
  exact ⟨by rw [e1, q1], h2 ⟨none⟩ rfl, by rw [e3, q3]⟩

/-- Counterexample for C6 as frozen: at the concrete success body
`{candidates: []}` the returned failure is the code's
`"Error: No candidates returned from API"`, not the claimed
"no content returned". -/
theorem missing_content_message_cex :
    callGeminiResult (FetchOutcome.ok ⟨some []⟩)
      = "Error: No candidates returned from API"
    ∧ callGeminiResult (FetchOutcome.ok ⟨some []⟩) ≠ "no content returned"
    ∧ callGeminiResult (FetchOutcome.ok ⟨some []⟩) ≠ "Error: no content returned" := by
  refine ⟨rfl, ?_, ?_⟩ <;> decide

/-! ### Claim C1 -/

/-- Claim C1 (amended): a submit on the interview screen whose request ends
in a non-success HTTP response appends the candidate turn and an interviewer
turn whose text starts with `"Error:"` — but `questionCount` IS incremented:
`setQuestionCount(prev => prev + 1)` runs unconditionally after the awaited
call, so the counter counts completed round trips regardless of success. -/
theorem submit_httpError_appends_error_and_increments
    (s : AppState) (code : Nat) (em : Option String) (stx : String)
    (hscreen : s.screen = Screen.interview)
    (hload : s.loading = false)
    (htrim : jsTrim (s.currentInput ++ s.interimInput) ≠ "") :
    (dispatch s (Event.submitClick (FetchOutcome.httpErr code em stx))).chatHistory
      = s.chatHistory ++
        [⟨Role.user, s.currentInput ++ s.interimInput⟩,
         ⟨Role.bot, callGeminiResult (FetchOutcome.httpErr code em stx)⟩]
    ∧ (∃ r, callGeminiResult (FetchOutcome.httpErr code em stx) = "Error:" ++ r)
    ∧ (dispatch s (Event.submitClick (FetchOutcome.httpErr code em stx))).questionCount
      = s.questionCount + 1 := by
  have hne : ¬(s.currentInput = "" ∧ s.interimInput = "") := by
    rintro ⟨h1, h2⟩
    exact htrim (by rw [h1, h2]; rfl)
  refine ⟨?_, ?_, ?_⟩
  · simp [dispatch, hscreen, submitClick, hload, hne, handleSendMessage, htrim]
  · refine ⟨" " ++ ("API Error: " ++ toString code ++ " - " ++ jsOrStr em stx), ?_⟩
    show "Error: " ++ _ = _
    rw [show ("Error: " : String) = "Error:" ++ " " from rfl, String.append_assoc]
  · simp [dispatch, hscreen, submitClick, hload, hne, handleSendMessage, htrim]

/-- Witness for C1 (amended) at a concrete interview state and a concrete
503 response. -/
theorem submit_httpError_witness :
    (dispatch exInterviewState
        (Event.submitClick (FetchOutcome.httpErr 503 (some "overloaded") "Service Unavailable"))).questionCount
      = exInterviewState.questionCount + 1
    ∧ (∃ r, callGeminiResult (FetchOutcome.httpErr 503 (some "overloaded") "Service Unavailable")
        = "Error:" ++ r) := by
  have h := submit_httpError_appends_error_and_increments exInterviewState
    503 (some "overloaded") "Service Unavailable" rfl rfl (by decide)
  exact ⟨h.2.2, h.2.1⟩

/-- Counterexample for C1 as frozen: at a concrete interview state with a
typed answer and a 500 response, the error turn is appended AND
`questionCount` goes from 0 to 1 — the claim's "questionCount is not
incremented" is false. -/
theorem submit_httpError_increments_cex :
    (dispatch exInterviewState
        (Event.submitClick (FetchOutcome.httpErr 500 none "Internal Server Error"))).chatHistory
      = exInterviewState.chatHistory ++
        [⟨Role.user, "I build web services."⟩,
         ⟨Role.bot, "Error: API Error: 500 - Internal Server Error"⟩]
    ∧ exInterviewState.questionCount = 0
    ∧ (dispatch exInterviewState
        (Event.submitClick (FetchOutcome.httpErr 500 none "Internal Server Error"))).questionCount
      ≠ exInterviewState.questionCount := by
  refine ⟨?_, rfl, ?_⟩ <;> decide

/-! ### Claim C2 -/

/-- Claim C2 (amended): `submitAnswer` is a no-op — the whole state value is
unchanged — while a request is in flight (the Submit button is disabled on
`loading`) and likewise when the joined input trims to empty; `end`,
however, is NOT gated on the busy flag: its button has no `disabled`
attribute, so `endInterview` runs to completion (reaching the feedback
screen) even during an in-flight request. -/
theorem submit_noop_busy_or_empty_end_ungated (s : AppState) (o : FetchOutcome) :
    (s.loading = true → submitClick s o = s)
    ∧ (jsTrim (s.currentInput ++ s.interimInput) = "" → submitClick s o = s)
    ∧ (endClick s o).screen = Screen.feedback
    ∧ (endClick s o).loading = false := by
  refine ⟨?_, ?_, rfl, rfl⟩
  · intro h
    simp [submitClick, h]
  · intro h
    by_cases hl : s.loading = true
    · simp [submitClick, hl]
    · by_cases hbe : s.currentInput = "" ∧ s.interimInput = ""
      · simp [submitClick, hbe]
      · simp [submitClick, hl, hbe, handleSendMessage, h]

/-- Witness for C2 (amended): the busy state and the whitespace-input state
are both left unchanged by a submit. -/
theorem submit_noop_witness :
    submitClick exBusyState (FetchOutcome.transportErr "x") = exBusyState
    ∧ submitClick exSpacesState (FetchOutcome.transportErr "x") = exSpacesState :=
  ⟨(submit_noop_busy_or_empty_end_ungated exBusyState (FetchOutcome.transportErr "x")).1 rfl,
   (submit_noop_busy_or_empty_end_ungated exSpacesState (FetchOutcome.transportErr "x")).2.1
     (by decide)⟩

/-- Counterexample for C2 as frozen: with a request in flight
(`loading = true`) on the interview screen, the End control still fires and
changes the state — the session moves to the feedback screen - so `end` is
not a no-op while busy. -/
theorem end_executes_while_busy_cex :
    exBusyState.loading = true
    ∧ exBusyState.screen = Screen.interview
    ∧ (dispatch exBusyState (Event.endClick (FetchOutcome.transportErr "Failed to fetch"))).screen
      = Screen.feedback := by
  refine ⟨rfl, rfl, ?_⟩
  decide

/-! ### Claim C9 -/

/-- Claim C9 (amended): the New Interview control on the feedback screen
only navigates back to setup: transcript, feedback report and counters are
left in place (they are discarded when the next interview starts, inside
`startInterview`), and the config fields are not reset, persisting as the
initial values of the next setup screen and the next interview. -/
theorem restart_changes_only_screen (s : AppState) (o : FetchOutcome)
    (hs : s.screen = Screen.feedback) (hl : s.loading = false) :
    (dispatch s Event.restartClick).screen = Screen.setup
    ∧ (dispatch s Event.restartClick).role = s.role
    ∧ (dispatch s Event.restartClick).skills = s.skills
    ∧ (dispatch s Event.restartClick).experience = s.experience
    ∧ (dispatch s Event.restartClick).rubric = s.rubric
    ∧ (dispatch s Event.restartClick).chatHistory = s.chatHistory
    ∧ (dispatch s Event.restartClick).feedbackReport = s.feedbackReport
    ∧ (dispatch s Event.restartClick).questionCount = s.questionCount
    ∧ (dispatch (dispatch s Event.restartClick) (Event.startClick o)).questionCount = 0
    ∧ (dispatch (dispatch s Event.restartClick) (Event.startClick o)).feedbackReport = none
    ∧ (dispatch (dispatch s Event.restartClick) (Event.startClick o)).role = s.role
    ∧ (dispatch (dispatch s Event.restartClick) (Event.startClick o)).skills = s.skills
    ∧ (dispatch (dispatch s Event.restartClick) (Event.startClick o)).experience = s.experience
    ∧ (dispatch (dispatch s Event.restartClick) (Event.startClick o)).rubric = s.rubric := by
  simp [dispatch, restartClick, startInterview, hs, hl]

/-- Witness for C9 (amended) at a concrete feedback-screen state. -/
theorem restart_changes_only_screen_witness :
    (dispatch exFeedbackState Event.restartClick).rubric = exFeedbackState.rubric
    ∧ (dispatch (dispatch exFeedbackState Event.restartClick)
        (Event.startClick (FetchOutcome.ok helloBody))).questionCount = 0
    ∧ (dispatch (dispatch exFeedbackState Event.restartClick)
        (Event.startClick (FetchOutcome.ok helloBody))).role = exFeedbackState.role := by
  have h := restart_changes_only_screen exFeedbackState (FetchOutcome.ok helloBody) rfl rfl
  exact ⟨h.2.2.2.2.1, h.2.2.2.2.2.2.2.2.1, h.2.2.2.2.2.2.2.2.2.2.1⟩

/-- Counterexample for C9 as frozen: right after the restart click the
transcript is still non-empty, the report still present and the counter
still 1 — the restart transition itself discards nothing. -/
theorem restart_keeps_state_cex :
    (dispatch exFeedbackState Event.restartClick).screen = Screen.setup
    ∧ (dispatch exFeedbackState Event.restartClick).chatHistory ≠ []
    ∧ (dispatch exFeedbackState Event.restartClick).questionCount ≠ 0
    ∧ (dispatch exFeedbackState Event.restartClick).feedbackReport ≠ none := by
  refine ⟨rfl, by decide, by decide, ?_⟩
  show some catchReport ≠ none
  simp

/-! ### Claim C3 -/

/-- A feedback response wrapped in code fences whose JSON has no
`improvements` field. -/
def fenceFeedback : String :=
  "```json\n\x7b\"summary\":\"Confident and clear.\",\"strengths\":[\"clarity\"],\"rating\":\"8/10\",\"technical_analysis\":\"Good depth.\",\"communication_analysis\":\"Concise.\"\x7d\n```"

/-- Success body carrying the fence-wrapped feedback JSON. -/
def fenceBody : GeminiBody :=
  ⟨some [⟨some ⟨[⟨fenceFeedback⟩]⟩⟩]⟩

/-- Success body carrying free prose instead of JSON (a parse failure). -/
def plainBody : GeminiBody :=
  ⟨some [⟨some ⟨[⟨"The candidate did well overall, I would rate them 8/10."⟩]⟩⟩]⟩

set_option maxRecDepth 4000 in
/-- Claim C3, evaluated at the deciding inputs.  The fence-stripping and
missing-field coalescing behave as claimed (the fenced response with no
`improvements` field yields an empty `improvements` list, the session
reaches the feedback screen, nothing surfaces as an exception).  But on the
degraded path — parse failure or endpoint error — `technical_analysis` is
the constant `"Raw output: Error"`, NOT the raw error/response text: in the
source the `catch` block reads `rawFeedback`, which is `const`-declared
inside the `try` block and hence out of scope there, and the guard
`typeof rawFeedback === 'string'` evaluates to false on the unresolvable
name.  The spec records the code's evident intent; the code is a scoping
slip. -/
theorem endInterview_feedback_paths :
    ((endInterview exInterviewState (FetchOutcome.ok fenceBody)).feedbackReport
        = some
            { summary := Json.str "Confident and clear."
              strengths := [Json.str "clarity"]
              improvements := []
              rating := Json.str "8/10"
              technical_analysis := Json.str "Good depth."
              communication_analysis := Json.str "Concise." }
      ∧ (endInterview exInterviewState (FetchOutcome.ok fenceBody)).screen
        = Screen.feedback)
    ∧ ((endInterview exInterviewState (FetchOutcome.ok plainBody)).feedbackReport
        = some catchReport
      ∧ (endInterview exInterviewState (FetchOutcome.ok plainBody)).screen
        = Screen.feedback)
    ∧ (endInterview exInterviewState
          (FetchOutcome.httpErr 500 none "Internal Server Error")).feedbackReport
        = some catchReport
    ∧ catchReport.technical_analysis = Json.str "Raw output: Error"
    ∧ catchReport.improvements = [] ∧ catchReport.strengths = [] :=
  ⟨⟨rfl, rfl⟩, ⟨rfl, rfl⟩, rfl, rfl, rfl, rfl⟩

/-! ### Claim C5 -/

/-- Role expected at the current position of the alternation: `bot`
(interviewer) when `e` is true, `user` (candidate) otherwise. -/
def expectedRole (e : Bool) : Role :=
  if e then Role.bot else Role.user

/-- Strict interviewer/candidate alternation starting with the role selected
by `e`. -/
def altFrom : Bool → List Msg → Bool
  | _, [] => true
  | e, m :: t => if m.role = expectedRole e then altFrom (!e) t else false

/-- Splitting lemma for the alternation test along an append. -/
theorem altFrom_append (l2 : List Msg) :
    ∀ (l1 : List Msg) (e : Bool),
      altFrom e (l1 ++ l2)
        = (altFrom e l1 && altFrom (if l1.length % 2 = 0 then e else !e) l2) := by
  intro l1
  induction l1 with
  | nil =>
    intro e
    simp [altFrom]
  | cons m t ih =>
    intro e
    rcases Nat.mod_two_eq_zero_or_one t.length with h2 | h2
    · have h3 : (t.length + 1) % 2 = 1 := by omega
      simp [altFrom, ih (!e), h2, h3, Bool.and_assoc]
    · have h3 : (t.length + 1) % 2 = 0 := by omega
      simp [altFrom, ih (!e), h2, h3, Bool.and_assoc]

/-- An alternating run contains no hidden system turn. -/
theorem altFrom_no_system :
    ∀ (t : List Msg) (e : Bool), altFrom e t = true →
      ∀ x ∈ t, x.role ≠ Role.system_hidden := by
  intro t
  induction t with
  | nil => simp
  | cons m rest ih =>
    intro e h x hx
    rw [altFrom] at h
    split at h
    · rcases List.mem_cons.mp hx with hx | hx
      · subst hx
        rename_i hrole
        rw [hrole]
        cases e <;> simp [expectedRole]
      · exact ih (!e) h x hx
    · exact absurd h (by simp)

/-- The conversational shape of the transcript: empty, or one hidden system
turn followed by an interviewer-first alternation. -/
def TransShape (h : List Msg) : Prop :=
  h = [] ∨ ∃ m t, h = m :: t ∧ m.role = Role.system_hidden ∧ altFrom true t = true

/-- Strengthened reachability invariant: the transcript always has the
conversational shape, and on the interview screen it is additionally
non-empty with an odd-length alternating tail (it ends with an interviewer
turn, since each submit is one full round trip). -/
def StrongInv (s : AppState) : Prop :=
  TransShape s.chatHistory
    ∧ (s.screen = Screen.interview →
        ∃ m t, s.chatHistory = m :: t ∧ m.role = Role.system_hidden
          ∧ altFrom true t = true ∧ t.length % 2 = 1)

/-- Every reachable state satisfies the strengthened invariant. -/
theorem reachable_strongInv : ∀ s, Reachable s → StrongInv s := by
  intro s h
  induction h with
  | init =>
    exact ⟨Or.inl rfl, by intro hscr; exact absurd hscr (by decide)⟩
  | step s e hr ih =>
    obtain ⟨hshape, hint⟩ := ih
    cases e with
    | startClick o =>
      show StrongInv (dispatch s (Event.startClick o))
      rw [dispatch]
      by_cases h1 : s.screen = Screen.setup
      · rw [if_pos h1]
        by_cases h2 : s.loading = true
        · rw [if_pos h2]
          exact ⟨hshape, hint⟩
        · rw [if_neg h2]
          constructor
          · exact Or.inr ⟨_, _, rfl, rfl, by simp [altFrom, expectedRole]⟩
          · intro _
            exact ⟨_, _, rfl, rfl, by simp [altFrom, expectedRole], rfl⟩
      · rw [if_neg h1]
        exact ⟨hshape, hint⟩
    | submitClick o =>
      show StrongInv (dispatch s (Event.submitClick o))
      rw [dispatch]
      by_cases h1 : s.screen = Screen.interview
      · rw [if_pos h1]
        rw [submitClick]
        by_cases h2 : s.loading = true ∨ (s.currentInput = "" ∧ s.interimInput = "")
        · rw [if_pos h2]
          exact ⟨hshape, hint⟩
        · rw [if_neg h2]
          rw [handleSendMessage]
          by_cases h3 : jsTrim (s.currentInput ++ s.interimInput) = ""
          · simp only [h3, if_pos]
            exact ⟨hshape, hint⟩
          · simp only [h3, if_neg, if_false]
            obtain ⟨m, t, hh, hrole, halt, hlen⟩ := hint h1
            have halt2 :
                altFrom true (t ++
                  [⟨Role.user, s.currentInput ++ s.interimInput⟩,
                   ⟨Role.bot, callGeminiResult o⟩]) = true := by
              rw [altFrom_append]
              simp [halt, hlen, altFrom, expectedRole]
            constructor
            · refine Or.inr ⟨m, t ++
                [⟨Role.user, s.currentInput ++ s.interimInput⟩,
                 ⟨Role.bot, callGeminiResult o⟩], ?_, hrole, halt2⟩
              show s.chatHistory ++ _ = _
              rw [hh]
              simp
            · intro _
              refine ⟨m, t ++
                [⟨Role.user, s.currentInput ++ s.interimInput⟩,
                 ⟨Role.bot, callGeminiResult o⟩], ?_, hrole, halt2, ?_⟩
              · show s.chatHistory ++ _ = _
                rw [hh]
                simp
              · simp only [List.length_append, List.length_cons, List.length_nil]
                omega
      · rw [if_neg h1]
        exact ⟨hshape, hint⟩
    | endClick o =>
      show StrongInv (dispatch s (Event.endClick o))
      rw [dispatch]
      by_cases h1 : s.screen = Screen.interview
      · rw [if_pos h1]
        refine ⟨hshape, ?_⟩
        intro hscr
        exact absurd (show Screen.feedback = Screen.interview from hscr) (by decide)
      · rw [if_neg h1]
        exact ⟨hshape, hint⟩
    | restartClick =>
      show StrongInv (dispatch s Event.restartClick)
      rw [dispatch]
      by_cases h1 : s.screen = Screen.feedback
      · rw [if_pos h1]
        refine ⟨hshape, ?_⟩
        intro hscr
        exact absurd (show Screen.setup = Screen.interview from hscr) (by decide)
      · rw [if_neg h1]
        exact ⟨hshape, hint⟩

/-- Claim C5: in every reachable state the transcript, when non-empty,
starts with exactly one hidden system turn — the head is the system turn and
no other turn is one — followed by strictly alternating
interviewer/candidate turns beginning with the interviewer; the invariant is
thus preserved by every operation (start, submit, end, restart). -/
theorem transcript_invariant (s : AppState) (hs : Reachable s) :
    s.chatHistory = []
    ∨ ∃ m t, s.chatHistory = m :: t
        ∧ m.role = Role.system_hidden
        ∧ altFrom true t = true
        ∧ ∀ x ∈ t, x.role ≠ Role.system_hidden := by
  obtain ⟨hshape, _⟩ := reachable_strongInv s hs
  rcases hshape with h | ⟨m, t, h1, h2, h3⟩
  · exact Or.inl h
  · exact Or.inr ⟨m, t, h1, h2, h3, altFrom_no_system t true h3⟩

/-- Witness for C5 at the concrete state reached by mounting the app and
starting an interview against the `"Hello"` response. -/
theorem transcript_invariant_witness :
    (dispatch initState (Event.startClick (FetchOutcome.ok helloBody))).chatHistory = []
    ∨ ∃ m t,
        (dispatch initState (Event.startClick (FetchOutcome.ok helloBody))).chatHistory = m :: t
        ∧ m.role = Role.system_hidden
        ∧ altFrom true t = true
        ∧ ∀ x ∈ t, x.role ≠ Role.system_hidden :=
  transcript_invariant _
    (Reachable.step initState (Event.startClick (FetchOutcome.ok helloBody)) Reachable.init)
